import Mathlib

/-
  Verification of the collaboration-task and chat logic of the univibe
  web application.

  The definitions below are a shallow embedding of the client handlers
  (CollabChat.handleSendMessage, the realtime INSERT handler,
  CollabPostDetailPage.handleAcceptHelper / handleComplete,
  PostCollabModal.handleSubmit, RegisterPage.performUsernameCheck) and of
  the SQL function accept_collab_application from the migration
  20241201_add_collab_applications.sql.  User identifiers (UUIDs) are
  modelled as strings, row identifiers as naturals, and coin amounts as
  rationals.  Remote calls are modelled by their request payload together
  with an Option String result (some msg = failure with error message
  msg, none = success).
-/

namespace Univibe

/-- Row of the collab_messages table as the chat component sees it
(CollabMessageWithSender).  The sender profile is modelled by its id. -/
structure ChatMsg where
  id : Nat
  post_id : Nat
  sender_id : String
  content : String
  file_url : Option String
  file_type : Option String
  created_at : String
  sender : String
  deriving Repr, DecidableEq

/-- Local state of the CollabChat component: the message list, the input
field and the isSending flag. -/
structure ChatState where
  messages : List ChatMsg
  newMessage : String
  isSending : Bool
  deriving Repr, DecidableEq

/-- Payload of the remote insert issued by handleSendMessage. -/
structure ChatInsertPayload where
  post_id : Nat
  sender_id : String
  content : String
  deriving Repr, DecidableEq

/-- Model of the JavaScript String.prototype.trim used by the handlers:
drop whitespace characters from both ends of the string.  Stated over the
character list of the string so that it evaluates by kernel reduction. -/
def jsTrim (s : String) : String :=
  String.mk (((s.data.dropWhile Char.isWhitespace).reverse.dropWhile Char.isWhitespace).reverse)

/-- Shallow embedding of CollabChat.handleSendMessage.  The temporary id
(Date.now() in the source) and the created_at timestamp are passed in as
parameters; insertFails tells whether the awaited remote insert returned
an error.  Returns the final component state and the insert payload that
was sent (none when the handler returned early). -/
def handleSendMessage (currentUser : String) (postId : Nat) (tempId : Nat)
    (now : String) (insertFails : Bool) (s : ChatState) :
    ChatState × Option ChatInsertPayload :=
  let content := jsTrim s.newMessage
  if content = "" then (s, none)
  else
    let optimistic : ChatMsg :=
      { id := tempId, post_id := postId, sender_id := currentUser,
        content := content, file_url := none, file_type := none,
        created_at := now, sender := currentUser }
    let s1 : ChatState :=
      { s with messages := s.messages ++ [optimistic], newMessage := "",
               isSending := true }
    let payload : ChatInsertPayload :=
      { post_id := postId, sender_id := currentUser, content := content }
    if insertFails then
      ({ s1 with
          messages := s1.messages.filter (fun m => m.id ≠ tempId),
          newMessage := content,
          isSending := false }, some payload)
    else
      ({ s1 with isSending := false }, some payload)

/-- Shallow embedding of the realtime INSERT callback registered by
CollabChat: a self-originated event is dropped, any other event is
enriched with a sender profile and appended. -/
def handleRealtimeInsert (currentUser otherUser : String)
    (msgs : List ChatMsg) (incoming : ChatMsg) : List ChatMsg :=
  if incoming.sender_id = currentUser then msgs
  else
    let senderProfile := if incoming.sender_id = otherUser then otherUser else currentUser
    msgs ++ [{ incoming with sender := senderProfile }]

/-- Concrete chat message used in closed statements: a stored message
whose id happens to equal the temporary id chosen for the next send. -/
def exMsgCollide : ChatMsg :=
  { id := 5, post_id := 1, sender_id := "other", content := "x",
    file_url := none, file_type := none, created_at := "t0", sender := "other" }

/-- Concrete chat state with one stored message and an input that carries
trailing whitespace. -/
def exStateCollide : ChatState :=
  { messages := [exMsgCollide], newMessage := "hi ", isSending := false }

/-- Concrete chat state with an empty message list and input text hi. -/
def exStateFresh : ChatState :=
  { messages := [], newMessage := "hi", isSending := false }

/-- Concrete chat state whose input is whitespace only. -/
def exStateBlank : ChatState :=
  { messages := [], newMessage := "  ", isSending := false }

/-- Concrete self-originated realtime message. -/
def exSelfMsg : ChatMsg :=
  { id := 7, post_id := 1, sender_id := "me", content := "hello",
    file_url := none, file_type := none, created_at := "t", sender := "me" }

theorem filter_ne_id_eq_self (tid : Nat) (xs : List ChatMsg)
    (h : tid ∉ xs.map (fun m => m.id)) :
    xs.filter (fun m => m.id ≠ tid) = xs := by
  apply List.filter_eq_self.mpr
  intro a ha
  have hne : a.id ≠ tid := by
    intro he
    exact h (he ▸ List.mem_map_of_mem (fun m => m.id) ha)
  simp [hne]

/-- C1 counterexample: with a stored message whose id collides with the
temporary id and an input carrying trailing whitespace, a failed send
neither restores the previous message list (the collided entry is
filtered out as well) nor the exact input text (only its trimmed form is
restored). -/
theorem sendMessage_rollback_cex :
    (handleSendMessage "me" 1 5 "t1" true exStateCollide).1.messages ≠
      exStateCollide.messages ∧
    (handleSendMessage "me" 1 5 "t1" true exStateCollide).1.newMessage ≠
      exStateCollide.newMessage := by
  decide

/-- C1 (amended): for a failed send whose temporary id does not already
occur in the message list, the rollback removes exactly the optimistic
entry, so the message list equals the list immediately before the
optimistic append, and the input field is restored to the trimmed text
that was sent. -/
theorem sendMessage_rollback (currentUser : String) (postId tempId : Nat)
    (now : String) (s : ChatState)
    (hfresh : tempId ∉ s.messages.map (fun m => m.id))
    (hne : jsTrim s.newMessage ≠ "") :
    (handleSendMessage currentUser postId tempId now true s).1.messages = s.messages ∧
    (handleSendMessage currentUser postId tempId now true s).1.newMessage = jsTrim s.newMessage := by
  unfold handleSendMessage
  simp [hne, List.filter_append, filter_ne_id_eq_self tempId s.messages hfresh]
  intro a ha he
  exact hfresh (he ▸ List.mem_map_of_mem (fun m => m.id) ha)

/-- Closed instance of sendMessage_rollback at a concrete state. -/
theorem sendMessage_rollback_witness :
    ((5 : Nat) ∉ exStateFresh.messages.map (fun m => m.id) ∧
      jsTrim exStateFresh.newMessage ≠ "") ∧
    ((handleSendMessage "me" 1 5 "t1" true exStateFresh).1.messages =
        exStateFresh.messages ∧
     (handleSendMessage "me" 1 5 "t1" true exStateFresh).1.newMessage =
        jsTrim exStateFresh.newMessage) :=
  ⟨⟨by decide, by decide⟩,
   sendMessage_rollback "me" 1 5 "t1" exStateFresh (by decide) (by decide)⟩

/-- C2: an incoming realtime INSERT whose sender is the current user
leaves the message list unchanged, so the occurrence count of every
message (in particular of the optimistic copy of a self-sent message) is
preserved and no self-originated message is ever appended twice. -/
theorem realtimeInsert_self_noop (currentUser otherUser : String)
    (msgs : List ChatMsg) (incoming : ChatMsg)
    (hself : incoming.sender_id = currentUser) :
    handleRealtimeInsert currentUser otherUser msgs incoming = msgs ∧
    ∀ m : ChatMsg,
      (handleRealtimeInsert currentUser otherUser msgs incoming).count m = msgs.count m := by
  unfold handleRealtimeInsert
  simp [hself]

/-- Closed instance of realtimeInsert_self_noop at a concrete event. -/
theorem realtimeInsert_self_noop_witness :
    exSelfMsg.sender_id = "me" ∧
    handleRealtimeInsert "me" "you" [] exSelfMsg = [] :=
  ⟨rfl, (realtimeInsert_self_noop "me" "you" [] exSelfMsg rfl).1⟩

/-- C10: a send whose trimmed content is empty is a complete no-op (state
unchanged, input not cleared, no remote insert), and every payload
submitted and every message newly appended carries the trimmed, non-empty
input content. -/
theorem sendMessage_requires_content (currentUser : String) (postId tempId : Nat)
    (now : String) (fails : Bool) (s : ChatState) :
    (jsTrim s.newMessage = "" →
      handleSendMessage currentUser postId tempId now fails s = (s, none)) ∧
    (∀ p : ChatInsertPayload,
      (handleSendMessage currentUser postId tempId now fails s).2 = some p →
      p.content = jsTrim s.newMessage ∧ p.content ≠ "") ∧
    (∀ m : ChatMsg,
      m ∈ (handleSendMessage currentUser postId tempId now fails s).1.messages →
      m ∉ s.messages → m.content = jsTrim s.newMessage ∧ m.content ≠ "") := by
  by_cases h : jsTrim s.newMessage = ""
  · simp [handleSendMessage, h]
  · refine ⟨fun hc => absurd hc h, ?_, ?_⟩
    · intro p hp
      cases fails <;> simp [handleSendMessage, h] at hp <;> simp [← hp, h]
    · intro m hm hnot
      cases fails <;> simp [handleSendMessage, h] at hm
      · rcases hm with hm1 | hm1
        · exact absurd hm1 hnot
        · simp [hm1, h]
      · exact absurd hm.1 hnot

/-- Closed instance of sendMessage_requires_content at a concrete state. -/
theorem sendMessage_requires_content_witness :
    (jsTrim exStateBlank.newMessage = "" →
      handleSendMessage "me" 1 5 "t" false exStateBlank = (exStateBlank, none)) ∧
    (∀ p : ChatInsertPayload,
      (handleSendMessage "me" 1 5 "t" false exStateBlank).2 = some p →
      p.content = jsTrim exStateBlank.newMessage ∧ p.content ≠ "") ∧
    (∀ m : ChatMsg,
      m ∈ (handleSendMessage "me" 1 5 "t" false exStateBlank).1.messages →
      m ∉ exStateBlank.messages →
      m.content = jsTrim exStateBlank.newMessage ∧ m.content ≠ "") :=
  sendMessage_requires_content "me" 1 5 "t" false exStateBlank

/-- Status of a collab post, the values of the status column of
collab_posts: open, in_progress, completed, cancelled, disputed. -/
inductive Status where
  | Open
  | InProgress
  | Completed
  | Cancelled
  | Disputed
  deriving Repr, DecidableEq

/-- Row of the collab_posts table (fields used by the handlers under
verification).  helper_id is nullable. -/
structure CollabPost where
  id : Nat
  poster_id : String
  helper_id : Option String
  status : Status
  reward_coins : ℚ
  deriving Repr, DecidableEq

/-- Update request issued by handleAcceptHelper against collab_posts:
set helper_id and status on the row with the given id. -/
structure AcceptHelperUpdate where
  post_id : Nat
  helper_id : String
  status : Status
  deriving Repr, DecidableEq

/-- Outcome of one run of CollabPostDetailPage.handleAcceptHelper: the
remote update that was issued (none when the handler returned early) and
the toast shown. -/
structure AcceptHelperResult where
  updateReq : Option AcceptHelperUpdate
  toastError : Option String
  toastSuccess : Option String
  deriving Repr, DecidableEq

/-- Result of a handler that issued no remote call and showed no toast. -/
def acceptHelperNoop : AcceptHelperResult :=
  { updateReq := none, toastError := none, toastSuccess := none }

/-- Shallow embedding of CollabPostDetailPage.handleAcceptHelper.  The
guard mirrors the source: return early when the post has not loaded, no
user is logged in, or the current user is the poster; otherwise issue the
update setting helper_id to the current user and status to in_progress,
and toast the remote error message on failure (updateError = some msg) or
a success message. -/
def handleAcceptHelper (post : Option CollabPost) (user : Option String)
    (postId : Nat) (updateError : Option String) : AcceptHelperResult :=
  match post, user with
  | some p, some u =>
    if p.poster_id = u then acceptHelperNoop
    else
      { updateReq := some { post_id := postId, helper_id := u, status := Status.InProgress },
        toastError := updateError,
        toastSuccess :=
          match updateError with
          | some _ => none
          | none => some "You have accepted the task! You can now chat." }
  | _, _ => acceptHelperNoop

/-- Local state of CollabPostDetailPage that handleComplete can observe:
the loaded post, the deliverables list and the known wallet balance. -/
structure DetailState where
  post : Option CollabPost
  deliverables : List Nat
  wallet : ℚ
  deriving Repr, DecidableEq

/-- Arguments of the complete_task_and_pay remote procedure call. -/
structure CompleteRpcArgs where
  p_post_id : Nat
  p_poster_id : String
  p_helper_id : String
  p_amount : ℚ
  deriving Repr, DecidableEq

/-- Outcome of one run of CollabPostDetailPage.handleComplete. -/
structure CompleteResult where
  state : DetailState
  rpcCalled : Option CompleteRpcArgs
  walletRefetched : Bool
  toastError : Option String
  toastSuccess : Option String
  deriving Repr, DecidableEq

/-- Fallback message of the catch branch of handleComplete. -/
def completeFallbackMsg : String :=
  "An unexpected error occurred while completing the task."

/-- Model of the JavaScript expression err.message or-else fallback: the
empty string is falsy, so it is replaced by the fallback message. -/
def jsOrElse (msg fallback : String) : String :=
  if msg = "" then fallback else msg

/-- Shallow embedding of CollabPostDetailPage.handleComplete.  confirmed
models the window.confirm answer; rpcResult is the outcome of the
complete_task_and_pay call (some msg = error with message msg).  Local
post, deliverables and wallet state are never written by the handler; the
wallet is refetched only on success. -/
def handleComplete (user : Option String) (confirmed : Bool) (postId : Nat)
    (s : DetailState) (rpcResult : Option String) : CompleteResult :=
  match s.post, user with
  | some p, some u =>
    if p.poster_id ≠ u ∨ p.helper_id = none then
      { state := s, rpcCalled := none, walletRefetched := false,
        toastError := none, toastSuccess := none }
    else if ¬ confirmed then
      { state := s, rpcCalled := none, walletRefetched := false,
        toastError := none, toastSuccess := none }
    else
      match p.helper_id with
      | some h =>
        let args : CompleteRpcArgs :=
          { p_post_id := postId, p_poster_id := p.poster_id,
            p_helper_id := h, p_amount := p.reward_coins }
        match rpcResult with
        | some msg =>
          { state := s, rpcCalled := some args, walletRefetched := false,
            toastError := some (jsOrElse msg completeFallbackMsg),
            toastSuccess := none }
        | none =>
          { state := s, rpcCalled := some args, walletRefetched := true,
            toastError := none,
            toastSuccess := some "Task completed and payment sent!" }
      | none =>
        { state := s, rpcCalled := none, walletRefetched := false,
          toastError := none, toastSuccess := none }
  | _, _ =>
    { state := s, rpcCalled := none, walletRefetched := false,
      toastError := none, toastSuccess := none }

/-- Concrete in_progress post with poster, helper and a reward. -/
def exPost : CollabPost :=
  { id := 1, poster_id := "poster", helper_id := some "helper",
    status := Status.InProgress, reward_coins := 5 }

/-- Concrete detail-page state holding exPost and one deliverable. -/
def exDetail : DetailState :=
  { post := some exPost, deliverables := [1], wallet := 10 }

/-- C3 counterexample: when the remote procedure fails with an empty
error message, handleComplete surfaces the generic fallback message, not
the remote message verbatim. -/
theorem handleComplete_verbatim_cex :
    (handleComplete (some "poster") true 1 exDetail (some "")).rpcCalled ≠ none ∧
    (handleComplete (some "poster") true 1 exDetail (some "")).toastError ≠ some "" := by
  decide

/-- C3 (amended): a failing complete_task_and_pay call never changes the
local state (post, deliverables, wallet) and never refetches the wallet,
and whenever the remote error message is non-empty it is surfaced
verbatim (an empty message is replaced by a generic fallback). -/
theorem handleComplete_error_rollback (user : Option String) (confirmed : Bool)
    (postId : Nat) (s : DetailState) (msg : String) (hmsg : msg ≠ "") :
    (handleComplete user confirmed postId s (some msg)).state = s ∧
    (handleComplete user confirmed postId s (some msg)).walletRefetched = false ∧
    (handleComplete user confirmed postId s (some msg)).toastSuccess = none ∧
    ((handleComplete user confirmed postId s (some msg)).rpcCalled ≠ none →
      (handleComplete user confirmed postId s (some msg)).toastError = some msg) := by
  cases hsp : s.post with
  | none =>
    cases user <;> simp [handleComplete, hsp]
  | some p =>
    cases user with
    | none => simp [handleComplete, hsp]
    | some u =>
      by_cases hguard : p.poster_id ≠ u ∨ p.helper_id = none
      · simp [handleComplete, hsp, hguard]
      · by_cases hc : confirmed
        · cases hh : p.helper_id with
          | none =>
            push_neg at hguard
            exact absurd hh hguard.2
          | some helper =>
            push_neg at hguard
            simp [handleComplete, hsp, hguard, hguard.1, hc, hh, jsOrElse, hmsg]
        · simp [handleComplete, hsp, hguard, hc]

/-- Closed instance of handleComplete_error_rollback at a concrete state. -/
theorem handleComplete_error_rollback_witness :
    ("boom" ≠ "") ∧
    ((handleComplete (some "poster") true 1 exDetail (some "boom")).state = exDetail ∧
     (handleComplete (some "poster") true 1 exDetail (some "boom")).walletRefetched = false ∧
     (handleComplete (some "poster") true 1 exDetail (some "boom")).toastSuccess = none ∧
     ((handleComplete (some "poster") true 1 exDetail (some "boom")).rpcCalled ≠ none →
       (handleComplete (some "poster") true 1 exDetail (some "boom")).toastError = some "boom")) :=
  ⟨by decide,
   handleComplete_error_rollback (some "poster") true 1 exDetail "boom" (by decide)⟩

/-- C9: handleAcceptHelper is a complete no-op (no remote update, no
toast) when the post has not loaded, no user is logged in, or the current
user is the poster; and every update it does issue assigns as helper the
current user, who differs from the poster of the displayed post. -/
theorem acceptHelper_guard (post : Option CollabPost) (user : Option String)
    (postId : Nat) (err : Option String) :
    ((post = none ∨ user = none ∨
        (∃ p u, post = some p ∧ user = some u ∧ p.poster_id = u)) →
      handleAcceptHelper post user postId err = acceptHelperNoop) ∧
    (∀ req : AcceptHelperUpdate,
      (handleAcceptHelper post user postId err).updateReq = some req →
      ∃ p u, post = some p ∧ user = some u ∧ req.helper_id = u ∧ p.poster_id ≠ u) := by
  cases post with
  | none => simp [handleAcceptHelper, acceptHelperNoop]
  | some p =>
    cases user with
    | none => simp [handleAcceptHelper, acceptHelperNoop]
    | some u =>
      by_cases hpo : p.poster_id = u
      · constructor
        · intro _
          simp [handleAcceptHelper, hpo]
        · intro req hreq
          simp [handleAcceptHelper, hpo, acceptHelperNoop] at hreq
      · constructor
        · rintro (h | h | ⟨p2, u2, hp2, hu2, hpo2⟩)
          · exact absurd h (by simp)
          · exact absurd h (by simp)
          · rw [Option.some.injEq] at hp2 hu2
            exact absurd (hp2 ▸ hu2 ▸ hpo2) hpo
        · intro req hreq
          refine ⟨p, u, rfl, rfl, ?_, hpo⟩
          simp [handleAcceptHelper, hpo] at hreq
          simp [← hreq]

/-- Closed instance of acceptHelper_guard for a poster viewing their own
post: the handler issues nothing. -/
theorem acceptHelper_guard_witness :
    handleAcceptHelper (some exPost) (some "poster") 1 none = acceptHelperNoop :=
  (acceptHelper_guard (some exPost) (some "poster") 1 none).1
    (Or.inr (Or.inr ⟨exPost, "poster", rfl, rfl, rfl⟩))

/-- Status of a collab application: pending, accepted or declined. -/
inductive AppStatus where
  | Pending
  | Accepted
  | Declined
  deriving Repr, DecidableEq

/-- Row of the collab_applications table. -/
structure CollabApplication where
  id : Nat
  post_id : Nat
  applicant_id : String
  status : AppStatus
  responded_at : Option Nat
  deriving Repr, DecidableEq

/-- Row of the notifications table as inserted by the SQL functions.  The
user_id column is the value of a scalar subquery and may be null when the
referenced application does not exist. -/
structure NotificationRow where
  user_id : Option String
  actor_id : String
  ntype : String
  entity_id : Nat
  deriving Repr, DecidableEq

/-- Relational state touched by the collab_applications SQL functions. -/
structure CollabDb where
  posts : List CollabPost
  apps : List CollabApplication
  notifs : List NotificationRow
  deriving Repr, DecidableEq

/-- Identifiers of the posts owned by the given poster: the subquery
SELECT id FROM collab_posts WHERE poster_id = p_poster_id. -/
def acceptPosterPostIds (posterId : String) (db : CollabDb) : List Nat :=
  (db.posts.filter (fun p => p.poster_id = posterId)).map (fun p => p.id)

/-- Row effect of the first UPDATE of accept_collab_application: set the
application accepted when its id matches and its post belongs to the
poster. -/
def acceptRow1 (appId : Nat) (pp : List Nat) (now : Nat)
    (a : CollabApplication) : CollabApplication :=
  if a.id = appId ∧ a.post_id ∈ pp then
    { a with status := AppStatus.Accepted, responded_at := some now }
  else a

/-- State of collab_applications after the first UPDATE of
accept_collab_application. -/
def acceptStep1 (appId : Nat) (posterId : String) (now : Nat)
    (db : CollabDb) : List CollabApplication :=
  db.apps.map (acceptRow1 appId (acceptPosterPostIds posterId db) now)

/-- Scalar subquery SELECT ... FROM collab_applications WHERE id =
p_application_id, evaluated after the first UPDATE (which changes only
status and responded_at).  The id column is a primary key, so the scalar
subquery is the first and only row with that id. -/
def acceptTarget (appId : Nat) (posterId : String) (now : Nat)
    (db : CollabDb) : Option CollabApplication :=
  (acceptStep1 appId posterId now db).find? (fun a => a.id = appId)

/-- Row effect of the second UPDATE of accept_collab_application on
collab_posts: assign the applicant as helper and set status in_progress
on the post of the target application when owned by the poster.  A NULL
scalar subquery (targetPost = none) matches no row. -/
def acceptPostRow (targetPost : Option Nat) (targetApplicant : Option String)
    (posterId : String) (p : CollabPost) : CollabPost :=
  if targetPost = some p.id ∧ p.poster_id = posterId then
    { p with helper_id := targetApplicant, status := Status.InProgress }
  else p

/-- State of collab_posts after the second UPDATE of
accept_collab_application. -/
def acceptStep2 (appId : Nat) (posterId : String) (now : Nat)
    (db : CollabDb) : List CollabPost :=
  db.posts.map
    (acceptPostRow
      ((acceptTarget appId posterId now db).map (fun t => t.post_id))
      ((acceptTarget appId posterId now db).map (fun t => t.applicant_id))
      posterId)

/-- Row effect of the third UPDATE of accept_collab_application: decline
every other application of the target post. -/
def declineRow (appId : Nat) (targetPost : Option Nat) (now : Nat)
    (a : CollabApplication) : CollabApplication :=
  if targetPost = some a.post_id ∧ a.id ≠ appId then
    { a with status := AppStatus.Declined, responded_at := some now }
  else a

/-- State of collab_applications after the third UPDATE of
accept_collab_application. -/
def acceptStep3 (appId : Nat) (posterId : String) (now : Nat)
    (db : CollabDb) : List CollabApplication :=
  (acceptStep1 appId posterId now db).map
    (declineRow appId ((acceptTarget appId posterId now db).map (fun t => t.post_id)) now)

/-- Shallow embedding of the SQL function accept_collab_application from
migration 20241201_add_collab_applications.sql.  The four statements run
in order: accept the application when it belongs to a post of the poster,
assign the helper on the post, decline all sibling applications, insert a
notification for the accepted applicant.  Each scalar subquery over
collab_applications is evaluated against the state after the first
UPDATE, which changes only status and responded_at.  now stands for the
SQL NOW() timestamp. -/
def acceptCollabApplication (appId : Nat) (posterId : String) (now : Nat)
    (db : CollabDb) : CollabDb :=
  { posts := acceptStep2 appId posterId now db,
    apps := acceptStep3 appId posterId now db,
    notifs := db.notifs ++
      [{ user_id := (acceptTarget appId posterId now db).map (fun a => a.applicant_id),
         actor_id := posterId,
         ntype := "collab_application_accepted", entity_id := appId }] }

/-- Shallow embedding of the SQL function decline_collab_application from
the same migration: decline the application when it belongs to a post of
the poster, then insert a notification.  collab_posts is untouched. -/
def declineCollabApplication (appId : Nat) (posterId : String) (now : Nat)
    (db : CollabDb) : CollabDb :=
  let posterPostIds := (db.posts.filter (fun p => p.poster_id = posterId)).map (fun p => p.id)
  let apps1 := db.apps.map (fun a =>
    if a.id = appId ∧ a.post_id ∈ posterPostIds then
      { a with status := AppStatus.Declined, responded_at := some now }
    else a)
  let target := apps1.find? (fun a => a.id = appId)
  { posts := db.posts, apps := apps1,
    notifs := db.notifs ++
      [{ user_id := target.map (fun a => a.applicant_id), actor_id := posterId,
         ntype := "collab_application_declined", entity_id := appId }] }

/-- Server-side effect of the update issued by handleAcceptHelper: set
helper_id to the accepting user and status to in_progress on the row
whose id is postId. -/
def acceptHelperDbUpdate (postId : Nat) (userId : String)
    (posts : List CollabPost) : List CollabPost :=
  posts.map (fun p =>
    if p.id = postId then
      { p with helper_id := some userId, status := Status.InProgress }
    else p)

theorem find_key_of_nodup {α β : Type} [DecidableEq β] (key : α → β) (k : β)
    (l : List α) (a : α) (hnd : (l.map key).Nodup) (ha : a ∈ l) (hk : key a = k) :
    l.find? (fun x => key x = k) = some a := by
  induction l with
  | nil => cases ha
  | cons h t ih =>
    rw [List.map_cons, List.nodup_cons] at hnd
    rcases List.mem_cons.mp ha with rfl | hat
    · exact List.find?_cons_of_pos _ (by simp [hk])
    · have hne : ¬ key h = k := fun he => hnd.1 (by
        have hm : key a ∈ t.map key := List.mem_map_of_mem key hat
        rwa [hk, ← he] at hm)
      rw [List.find?_cons_of_neg _ (by simp [hne])]
      exact ih hnd.2 hat

theorem acceptRow1_id (appId : Nat) (pp : List Nat) (now : Nat)
    (a : CollabApplication) : (acceptRow1 appId pp now a).id = a.id := by
  unfold acceptRow1
  split <;> rfl

theorem acceptRow1_post_id (appId : Nat) (pp : List Nat) (now : Nat)
    (a : CollabApplication) : (acceptRow1 appId pp now a).post_id = a.post_id := by
  unfold acceptRow1
  split <;> rfl

theorem acceptRow1_applicant_id (appId : Nat) (pp : List Nat) (now : Nat)
    (a : CollabApplication) :
    (acceptRow1 appId pp now a).applicant_id = a.applicant_id := by
  unfold acceptRow1
  split <;> rfl

theorem declineRow_id (appId : Nat) (tp : Option Nat) (now : Nat)
    (a : CollabApplication) : (declineRow appId tp now a).id = a.id := by
  unfold declineRow
  split <;> rfl

theorem declineRow_post_id (appId : Nat) (tp : Option Nat) (now : Nat)
    (a : CollabApplication) : (declineRow appId tp now a).post_id = a.post_id := by
  unfold declineRow
  split <;> rfl

theorem acceptPostRow_id (tp : Option Nat) (ta : Option String)
    (posterId : String) (p : CollabPost) :
    (acceptPostRow tp ta posterId p).id = p.id := by
  unfold acceptPostRow
  split <;> rfl

/-- C4: when the application belongs to a post owned by the given poster,
accept_collab_application leaves that application accepted, every other
application for the same post declined, and the post with helper_id set
to the accepted applicant and status in_progress.  Row identifiers are
primary keys, hence assumed distinct. -/
theorem accept_application_spec (db : CollabDb) (appId : Nat) (posterId : String)
    (now : Nat) (a : CollabApplication) (p : CollabPost)
    (ha : a ∈ db.apps) (haid : a.id = appId)
    (hp : p ∈ db.posts) (hpid : p.id = a.post_id) (hpo : p.poster_id = posterId)
    (hndA : (db.apps.map (fun x => x.id)).Nodup)
    (hndP : (db.posts.map (fun x => x.id)).Nodup) :
    (∀ b ∈ (acceptCollabApplication appId posterId now db).apps,
        b.id = appId → b.status = AppStatus.Accepted) ∧
    (∀ b ∈ (acceptCollabApplication appId posterId now db).apps,
        b.post_id = a.post_id → b.id ≠ appId → b.status = AppStatus.Declined) ∧
    (∀ q ∈ (acceptCollabApplication appId posterId now db).posts,
        q.id = a.post_id →
        q.helper_id = some a.applicant_id ∧ q.status = Status.InProgress) := by
  have hmemPost : a.post_id ∈ acceptPosterPostIds posterId db := by
    unfold acceptPosterPostIds
    exact List.mem_map.mpr ⟨p, List.mem_filter.mpr ⟨hp, by simp [hpo]⟩, hpid⟩
  have hids1 : (acceptStep1 appId posterId now db).map (fun x => x.id) =
      db.apps.map (fun x => x.id) := by
    unfold acceptStep1
    rw [List.map_map]
    apply List.map_congr_left
    intro x hx
    exact acceptRow1_id appId _ now x
  have htarget : acceptTarget appId posterId now db =
      some (acceptRow1 appId (acceptPosterPostIds posterId db) now a) := by
    unfold acceptTarget
    apply find_key_of_nodup (fun x : CollabApplication => x.id) appId
    · rw [hids1]
      exact hndA
    · unfold acceptStep1
      exact List.mem_map_of_mem _ ha
    · rw [acceptRow1_id]
      exact haid
  have hRa : acceptRow1 appId (acceptPosterPostIds posterId db) now a =
      { a with status := AppStatus.Accepted, responded_at := some now } := by
    unfold acceptRow1
    exact if_pos ⟨haid, hmemPost⟩
  have htargetPost :
      (acceptTarget appId posterId now db).map (fun t => t.post_id) = some a.post_id := by
    rw [htarget]
    simp [acceptRow1_post_id]
  have htargetApp :
      (acceptTarget appId posterId now db).map (fun t => t.applicant_id) =
        some a.applicant_id := by
    rw [htarget]
    simp [acceptRow1_applicant_id]
  refine ⟨?_, ?_, ?_⟩
  · intro b hb hbid
    simp only [acceptCollabApplication] at hb
    unfold acceptStep3 acceptStep1 at hb
    rcases List.mem_map.mp hb with ⟨x, hx, rfl⟩
    rcases List.mem_map.mp hx with ⟨y, hy, rfl⟩
    rw [declineRow_id, acceptRow1_id] at hbid
    have hya : y = a := List.inj_on_of_nodup_map hndA hy ha (by rw [hbid, haid])
    subst hya
    rw [hRa]
    unfold declineRow
    rw [if_neg (fun hc => hc.2 haid)]
  · intro b hb hbpost hbid
    simp only [acceptCollabApplication] at hb
    unfold acceptStep3 acceptStep1 at hb
    rcases List.mem_map.mp hb with ⟨x, hx, rfl⟩
    rcases List.mem_map.mp hx with ⟨y, hy, rfl⟩
    rw [declineRow_id, acceptRow1_id] at hbid
    have hR1y : acceptRow1 appId (acceptPosterPostIds posterId db) now y = y := by
      unfold acceptRow1
      exact if_neg (fun hc => hbid hc.1)
    rw [hR1y] at hbpost ⊢
    rw [declineRow_post_id] at hbpost
    unfold declineRow
    rw [if_pos ⟨by rw [htargetPost, hbpost], hbid⟩]
  · intro q hq hqid
    simp only [acceptCollabApplication] at hq
    unfold acceptStep2 at hq
    rcases List.mem_map.mp hq with ⟨r, hr, rfl⟩
    rw [acceptPostRow_id] at hqid
    have hrp : r = p := List.inj_on_of_nodup_map hndP hr hp (by rw [hqid, hpid])
    subst hrp
    unfold acceptPostRow
    rw [if_pos ⟨by rw [htargetPost, hpid], hpo⟩]
    exact ⟨htargetApp, rfl⟩

/-- Concrete application of alice to post 1. -/
def exApp1 : CollabApplication :=
  { id := 10, post_id := 1, applicant_id := "alice",
    status := AppStatus.Pending, responded_at := none }

/-- Concrete application of bob to post 1. -/
def exApp2 : CollabApplication :=
  { id := 11, post_id := 1, applicant_id := "bob",
    status := AppStatus.Pending, responded_at := none }

/-- Concrete open post without helper. -/
def exOpenPost : CollabPost :=
  { id := 1, poster_id := "poster", helper_id := none,
    status := Status.Open, reward_coins := 5 }

/-- Concrete database with one open post and two pending applications. -/
def exDb : CollabDb :=
  { posts := [exOpenPost], apps := [exApp1, exApp2], notifs := [] }

/-- Closed instance of accept_application_spec: accepting application 10
on exDb accepts alice, declines bob and assigns alice as helper. -/
theorem accept_application_spec_witness :
    (exApp1 ∈ exDb.apps ∧ exApp1.id = 10 ∧ exOpenPost ∈ exDb.posts ∧
     exOpenPost.id = exApp1.post_id ∧ exOpenPost.poster_id = "poster" ∧
     (exDb.apps.map (fun x => x.id)).Nodup ∧
     (exDb.posts.map (fun x => x.id)).Nodup) ∧
    ((∀ b ∈ (acceptCollabApplication 10 "poster" 99 exDb).apps,
        b.id = 10 → b.status = AppStatus.Accepted) ∧
     (∀ b ∈ (acceptCollabApplication 10 "poster" 99 exDb).apps,
        b.post_id = exApp1.post_id → b.id ≠ 10 → b.status = AppStatus.Declined) ∧
     (∀ q ∈ (acceptCollabApplication 10 "poster" 99 exDb).posts,
        q.id = exApp1.post_id →
        q.helper_id = some exApp1.applicant_id ∧ q.status = Status.InProgress)) :=
  ⟨⟨by decide, by decide, by decide, by decide, by decide, by decide, by decide⟩,
   accept_application_spec exDb 10 "poster" 99 exApp1 exOpenPost
     (by decide) (by decide) (by decide) (by decide) (by decide)
     (by decide) (by decide)⟩

/-- Invariant of the collab post data model: the helper is null exactly
when the post is still open. -/
def helperOpenInv (p : CollabPost) : Prop :=
  p.helper_id = none ↔ p.status = Status.Open

instance (p : CollabPost) : Decidable (helperOpenInv p) := by
  unfold helperOpenInv
  infer_instance

/-- C5: every collab-post-mutating operation in the repository preserves
the invariant that helper_id is null iff status is open: the update
issued by handleAcceptHelper, the SQL function accept_collab_application
and the SQL function decline_collab_application (which does not touch
posts) all assign helper_id and a non-open status together and never
reopen a post. -/
theorem collab_ops_preserve_helperOpenInv (db : CollabDb) (postId appId : Nat)
    (userId posterId : String) (now : Nat)
    (hinv : ∀ p ∈ db.posts, helperOpenInv p) :
    (∀ p ∈ acceptHelperDbUpdate postId userId db.posts, helperOpenInv p) ∧
    (∀ p ∈ (acceptCollabApplication appId posterId now db).posts, helperOpenInv p) ∧
    (∀ p ∈ (declineCollabApplication appId posterId now db).posts, helperOpenInv p) := by
  refine ⟨?_, ?_, ?_⟩
  · intro q hq
    unfold acceptHelperDbUpdate at hq
    rcases List.mem_map.mp hq with ⟨r, hr, rfl⟩
    split
    · simp [helperOpenInv]
    · exact hinv r hr
  · intro q hq
    simp only [acceptCollabApplication] at hq
    unfold acceptStep2 at hq
    rcases List.mem_map.mp hq with ⟨r, hr, rfl⟩
    unfold acceptPostRow
    split
    · rename_i hcond
      cases ht : acceptTarget appId posterId now db with
      | none =>
        rw [ht] at hcond
        simp at hcond
      | some t =>
        simp [helperOpenInv, ht]
    · exact hinv r hr
  · intro q hq
    simp only [declineCollabApplication] at hq
    exact hinv q hq

/-- Closed instance of collab_ops_preserve_helperOpenInv on exDb. -/
theorem collab_ops_preserve_helperOpenInv_witness :
    (∀ p ∈ exDb.posts, helperOpenInv p) ∧
    ((∀ p ∈ acceptHelperDbUpdate 1 "carol" exDb.posts, helperOpenInv p) ∧
     (∀ p ∈ (acceptCollabApplication 10 "poster" 99 exDb).posts, helperOpenInv p) ∧
     (∀ p ∈ (declineCollabApplication 11 "poster" 99 exDb).posts, helperOpenInv p)) :=
  ⟨by decide,
   collab_ops_preserve_helperOpenInv exDb 1 10 "carol" "poster" 99 (by decide)⟩

/-- Combined state of one CollabPostDetailPage client and the status
column of the post row it displays: db is the remote status, ui the
status the page last observed (fetchData copies db into ui). -/
structure ClientView where
  db : Status
  ui : Status
  deriving Repr, DecidableEq

/-- Client-side operations on the detail page: a realtime-triggered
refetch (fetchData), the helper accepting the task (handleAcceptHelper,
whose button is rendered disabled unless the observed status is open),
and the poster completing the task (handleComplete, reachable only from
the in_progress poster panel; its complete_task_and_pay call may fail). -/
inductive ClientOp where
  | refetch
  | acceptTask
  | completeTask (succeeds : Bool)
  deriving Repr, DecidableEq

/-- Modelled from the spec: the complete_task_and_pay remote procedure
lives in the hosted backend, outside this repository; per the spec it
atomically marks the task completed on success and changes nothing on
failure. -/
def completeTaskDbEffect (ok : Bool) (dbStatus : Status) : Status :=
  if ok then Status.Completed else dbStatus

/-- One step of the detail-page state machine.  Operations whose UI
gating is not satisfied leave the state unchanged, matching the disabled
buttons in the rendered page. -/
def stepClient : ClientOp → ClientView → ClientView
  | ClientOp.refetch, s => { s with ui := s.db }
  | ClientOp.acceptTask, s =>
      if s.ui = Status.Open then { s with db := Status.InProgress } else s
  | ClientOp.completeTask ok, s =>
      if s.ui = Status.InProgress then { s with db := completeTaskDbEffect ok s.db }
      else s

/-- Run a sequence of client operations. -/
def runClient : List ClientOp → ClientView → ClientView
  | [], s => s
  | o :: os, s => runClient os (stepClient o s)

/-- Inductive invariant of the single-client model: an observed completed
status reflects a completed row, and a completed row is only ever paired
with an in_progress or completed observation (the page completes only
from the in_progress panel and refetch copies the row). -/
def clientInv (s : ClientView) : Prop :=
  (s.ui = Status.Completed → s.db = Status.Completed) ∧
  (s.db = Status.Completed →
    s.ui = Status.InProgress ∨ s.ui = Status.Completed)

instance (s : ClientView) : Decidable (clientInv s) := by
  unfold clientInv
  infer_instance

theorem clientInv_step (o : ClientOp) (s : ClientView) (h : clientInv s) :
    clientInv (stepClient o s) := by
  obtain ⟨d, u⟩ := s
  revert h
  cases o with
  | refetch => cases d <;> cases u <;> decide
  | acceptTask => cases d <;> cases u <;> decide
  | completeTask ok => cases ok <;> cases d <;> cases u <;> decide

theorem clientUi_completed_step (o : ClientOp) (s : ClientView)
    (h : clientInv s) (hui : s.ui = Status.Completed) :
    (stepClient o s).ui = Status.Completed := by
  obtain ⟨d, u⟩ := s
  revert h hui
  cases o with
  | refetch => cases d <;> cases u <;> decide
  | acceptTask => cases d <;> cases u <;> decide
  | completeTask ok => cases ok <;> cases d <;> cases u <;> decide

theorem clientUi_completed_run (ops : List ClientOp) (s : ClientView)
    (h : clientInv s) (hui : s.ui = Status.Completed) :
    (runClient ops s).ui = Status.Completed := by
  induction ops generalizing s with
  | nil => exact hui
  | cons o os ih =>
    exact ih (stepClient o s) (clientInv_step o s h)
      (clientUi_completed_step o s h hui)

theorem runClient_append (ops1 ops2 : List ClientOp) (s : ClientView) :
    runClient (ops1 ++ ops2) s = runClient ops2 (runClient ops1 s) := by
  induction ops1 generalizing s with
  | nil => rfl
  | cons o os ih =>
    exact ih (stepClient o s)

theorem clientInv_run (ops : List ClientOp) (s : ClientView)
    (h : clientInv s) : clientInv (runClient ops s) := by
  induction ops generalizing s with
  | nil => exact h
  | cons o os ih =>
    exact ih (stepClient o s) (clientInv_step o s h)

/-- C6: starting from a state where the page has fetched the post (the
observed status equals the row status), along every sequence of
client-side operations (accepting the task, completing the task,
realtime-triggered refetches) the observed status is monotonic: once the
page observes completed, every later observation is still completed. -/
theorem client_status_monotonic (s0 : ClientView) (hsync : s0.ui = s0.db)
    (ops1 ops2 : List ClientOp)
    (hobs : (runClient ops1 s0).ui = Status.Completed) :
    (runClient (ops1 ++ ops2) s0).ui = Status.Completed := by
  have hinv0 : clientInv s0 := by
    constructor
    · intro hc
      rw [← hsync]
      exact hc
    · intro hc
      exact Or.inr (hsync.trans hc)
  rw [runClient_append]
  exact clientUi_completed_run ops2 (runClient ops1 s0)
    (clientInv_run ops1 s0 hinv0) hobs

/-- Closed instance of client_status_monotonic: after accept, refetch,
successful complete and refetch the page observes completed, and further
accept attempts and refetches keep it completed. -/
theorem client_status_monotonic_witness :
    (ClientView.mk Status.Open Status.Open).ui = (ClientView.mk Status.Open Status.Open).db ∧
    (runClient [ClientOp.acceptTask, ClientOp.refetch,
        ClientOp.completeTask true, ClientOp.refetch]
      (ClientView.mk Status.Open Status.Open)).ui = Status.Completed ∧
    (runClient ([ClientOp.acceptTask, ClientOp.refetch,
        ClientOp.completeTask true, ClientOp.refetch] ++
        [ClientOp.acceptTask, ClientOp.refetch])
      (ClientView.mk Status.Open Status.Open)).ui = Status.Completed :=
  ⟨rfl, by decide,
   client_status_monotonic (ClientView.mk Status.Open Status.Open) rfl
     [ClientOp.acceptTask, ClientOp.refetch, ClientOp.completeTask true, ClientOp.refetch]
     [ClientOp.acceptTask, ClientOp.refetch] (by decide)⟩

/-- Local state of the PostCollabModal form.  rewardAmount is the value
of the JavaScript parseFloat(reward) on the reward input, modelled as
none when the parse yields NaN. -/
structure ModalState where
  title : String
  subject : String
  description : String
  taskType : String
  reward : String
  agreed : Bool
  loading : Bool
  errorMsg : Option String
  deriving Repr, DecidableEq

/-- Arguments of the create_collab_and_escrow remote procedure call. -/
structure CreateRpcArgs where
  p_title : String
  p_subject : String
  p_description : String
  p_task_type : String
  p_reward_coins : ℚ
  deriving Repr, DecidableEq

/-- Shallow embedding of PostCollabModal.handleSubmit.  user is the
logged-in user (none when logged out), wallet the known wallet balance
(none when the wallet row has not loaded), rewardAmount the result of
parseFloat on the reward field (none for NaN), rpcResult the outcome of
the create_collab_and_escrow call.  Returns the final form state (the
loading flag is reset in the finally block, so only errorMsg can differ)
and the remote call that was issued, if any. -/
def handleSubmit (user : Option String) (wallet : Option ℚ)
    (rewardAmount : Option ℚ) (rpcResult : Option String) (s : ModalState) :
    ModalState × Option CreateRpcArgs :=
  let s0 := { s with errorMsg := none }
  match user with
  | none =>
    ({ s0 with errorMsg := some "You must be logged in to post a task." }, none)
  | some _ =>
    if ¬ s.agreed then
      ({ s0 with errorMsg := some "You must agree to the academic integrity policy." }, none)
    else
      match rewardAmount with
      | none =>
        ({ s0 with errorMsg := some "Please enter a valid, positive reward amount." }, none)
      | some r =>
        if r ≤ 0 then
          ({ s0 with errorMsg := some "Please enter a valid, positive reward amount." }, none)
        else
          let args : CreateRpcArgs :=
            { p_title := s.title, p_subject := s.subject,
              p_description := s.description, p_task_type := s.taskType,
              p_reward_coins := r }
          let proceed : ModalState × Option CreateRpcArgs :=
            match rpcResult with
            | some msg =>
              ({ s0 with errorMsg := some (jsOrElse msg "An unexpected error occurred.") },
               some args)
            | none => (s0, some args)
          match wallet with
          | some b =>
            if b < r then
              ({ s0 with errorMsg := some ("Insufficient VibeCoins. Your balance is " ++
                  toString b ++ ", but you need " ++ toString r ++
                  ". Please top up your wallet.") }, none)
            else proceed
          | none => proceed

/-- Concrete filled-in modal state. -/
def exModal : ModalState :=
  { title := "T", subject := "S", description := "D",
    taskType := "collaboration", reward := "5", agreed := true,
    loading := false, errorMsg := none }

/-- C7: whenever a client-side validation fails (logged out, integrity
box unchecked, reward not a positive number, or known balance below the
reward), handleSubmit sets an error message, issues no remote call, and
leaves every other field of the form state unchanged. -/
theorem handleSubmit_validates (user : Option String) (wallet rewardAmount : Option ℚ)
    (rpcResult : Option String) (s : ModalState)
    (hfail : user = none ∨ s.agreed = false ∨ rewardAmount = none ∨
      (∃ r, rewardAmount = some r ∧ r ≤ 0) ∨
      (∃ b r, wallet = some b ∧ rewardAmount = some r ∧ b < r)) :
    (handleSubmit user wallet rewardAmount rpcResult s).2 = none ∧
    ((handleSubmit user wallet rewardAmount rpcResult s).1.errorMsg).isSome = true ∧
    (handleSubmit user wallet rewardAmount rpcResult s).1.title = s.title ∧
    (handleSubmit user wallet rewardAmount rpcResult s).1.subject = s.subject ∧
    (handleSubmit user wallet rewardAmount rpcResult s).1.description = s.description ∧
    (handleSubmit user wallet rewardAmount rpcResult s).1.taskType = s.taskType ∧
    (handleSubmit user wallet rewardAmount rpcResult s).1.reward = s.reward ∧
    (handleSubmit user wallet rewardAmount rpcResult s).1.agreed = s.agreed ∧
    (handleSubmit user wallet rewardAmount rpcResult s).1.loading = s.loading := by
  rcases hfail with h | h | h | ⟨r, hr, hrle⟩ | ⟨b, r, hb, hr, hlt⟩
  · subst h
    simp [handleSubmit]
  · cases user with
    | none => simp [handleSubmit]
    | some u => simp [handleSubmit, h]
  · subst h
    cases user with
    | none => simp [handleSubmit]
    | some u =>
      by_cases hag : s.agreed
      · simp [handleSubmit, hag]
      · simp [handleSubmit, hag]
  · subst hr
    cases user with
    | none => simp [handleSubmit]
    | some u =>
      by_cases hag : s.agreed
      · simp [handleSubmit, hag, hrle]
      · simp [handleSubmit, hag]
  · subst hb
    subst hr
    cases user with
    | none => simp [handleSubmit]
    | some u =>
      by_cases hag : s.agreed
      · by_cases hrle : r ≤ 0
        · simp [handleSubmit, hag, hrle]
        · simp [handleSubmit, hag, hrle, hlt]
      · simp [handleSubmit, hag]

/-- Closed instance of handleSubmit_validates with a logged-out user. -/
theorem handleSubmit_validates_witness :
    ((none : Option String) = none) ∧
    ((handleSubmit none (some 10) (some 5) none exModal).2 = none ∧
     ((handleSubmit none (some 10) (some 5) none exModal).1.errorMsg).isSome = true ∧
     (handleSubmit none (some 10) (some 5) none exModal).1.title = exModal.title ∧
     (handleSubmit none (some 10) (some 5) none exModal).1.subject = exModal.subject ∧
     (handleSubmit none (some 10) (some 5) none exModal).1.description = exModal.description ∧
     (handleSubmit none (some 10) (some 5) none exModal).1.taskType = exModal.taskType ∧
     (handleSubmit none (some 10) (some 5) none exModal).1.reward = exModal.reward ∧
     (handleSubmit none (some 10) (some 5) none exModal).1.agreed = exModal.agreed ∧
     (handleSubmit none (some 10) (some 5) none exModal).1.loading = exModal.loading) :=
  ⟨rfl, handleSubmit_validates none (some 10) (some 5) none exModal (Or.inl rfl)⟩

/-- Pattern of the username regex in RegisterPage: 3 to 15 characters,
each a lowercase ASCII letter, digit or underscore. -/
def usernamePattern (s : String) : Bool :=
  (3 ≤ s.length && s.length ≤ 15) &&
  s.data.all (fun c => (('a' ≤ c && c ≤ 'z') || ('0' ≤ c && c ≤ '9')) || c = '_')

/-- Shallow embedding of RegisterPage.performUsernameCheck.  profiles is
the set of usernames present in the profiles table.  The JavaScript
guard if (!username) returns null for the empty string before the
pattern test. -/
def performUsernameCheck (profiles : List String) (username : String) : Option String :=
  if username = "" then none
  else if ¬ usernamePattern username then
    some "3-15 lowercase letters, numbers, or underscores."
  else if username ∈ profiles then some "Username is already taken."
  else none

/-- C8 counterexample: the empty string does not match the username
pattern, yet performUsernameCheck returns null for it rather than a
non-null error message. -/
theorem performUsernameCheck_empty_cex :
    usernamePattern "" = false ∧ performUsernameCheck [] "" = none := by
  decide

/-- C8 (amended): for every non-empty username that does not match the
pattern, performUsernameCheck returns a non-null error; it returns the
already-taken error exactly when the pattern matches and the username
exists in profiles; a pattern-matching, unclaimed username yields null. -/
theorem performUsernameCheck_spec (profiles : List String) (u : String) :
    (u ≠ "" → usernamePattern u = false →
      (performUsernameCheck profiles u).isSome = true) ∧
    (performUsernameCheck profiles u = some "Username is already taken." ↔
      usernamePattern u = true ∧ u ∈ profiles) ∧
    (usernamePattern u = true → u ∉ profiles →
      performUsernameCheck profiles u = none) := by
  have hne : ("3-15 lowercase letters, numbers, or underscores." : String) ≠
      "Username is already taken." := by decide
  by_cases he : u = ""
  · subst he
    have hpat : usernamePattern "" = false := by decide
    simp [performUsernameCheck, hpat]
  · by_cases hpat : usernamePattern u
    · by_cases hmem : u ∈ profiles
      · simp [performUsernameCheck, he, hpat, hmem]
      · simp [performUsernameCheck, he, hpat, hmem]
    · simp only [Bool.not_eq_true] at hpat
      simp [performUsernameCheck, he, hpat, hne]

/-- Closed instances of performUsernameCheck_spec: an invalid short
username is rejected, a fresh valid username passes, a taken username
reports the taken error. -/
theorem performUsernameCheck_spec_witness :
    ("ab" ≠ "" ∧ usernamePattern "ab" = false ∧
      (performUsernameCheck ["bob"] "ab").isSome = true) ∧
    (usernamePattern "alice" = true ∧ "alice" ∉ ["bob"] ∧
      performUsernameCheck ["bob"] "alice" = none) ∧
    performUsernameCheck ["bob"] "bob" = some "Username is already taken." :=
  ⟨⟨by decide, by decide,
    (performUsernameCheck_spec ["bob"] "ab").1 (by decide) (by decide)⟩,
   ⟨by decide, by decide,
    (performUsernameCheck_spec ["bob"] "alice").2.2 (by decide) (by decide)⟩,
   (performUsernameCheck_spec ["bob"] "bob").2.1.mpr ⟨by decide, by decide⟩⟩

end Univibe
